import Mathlib

/-!
Shallow embedding of `src/main.py`, an OpenLibrary scraping script.

The script has three operations:
* `crawl_book_details_from_url` (lines 38-123): fetch a book detail page and
  extract a record of bibliographic fields, each field falling back to a
  default when its marker is absent;
* `crawl_book_details_from_csv` (lines 125-158): loop over rows of a CSV,
  fetch each row's detail page, skip failures, and merge in the row's
  original title and work key;
* `crawl_openlibrary_books_by_subject` (lines 160-226): paginated discovery
  loop over subject search pages with selector fallbacks and an
  empty-page early stop.

Modelling conventions:
* An HTML document (BeautifulSoup object) is a `Node` tree.  `get_text`,
  `find` and `find_all` are implemented over that tree with BeautifulSoup's
  document-order (preorder) semantics; `find`/`find_all` search strict
  descendants of the node they are called on, as BeautifulSoup does.
* The network (`requests.get` inside `get_page`) is a parameter
  `fetch : String → Option Node`; `none` models a fetch/parse failure, in
  which case the Python code returns `None` from `get_page`.
* Python's empty-dict return `{}` of `crawl_book_details_from_url` (falsy,
  tested by `if details:` at line 147) is modelled as `Option.none`.
* The three regular expressions of the script are implemented character by
  character over `List Char` with Python `re.search` leftmost-match
  semantics, restricted to ASCII character classes.
* `float(...)` applied to a regex group matching `\d\.\d+` is modelled as
  the exact decimal rational the literal denotes.
* The `KeyError` that Python raises at line 203 when a selected title link
  has no `href` attribute is modelled by computing in `Except Unit`.
-/

/-- HTML document tree: an element with a tag, attributes and children, or a
text node.  This models the BeautifulSoup parse tree as far as the script
observes it. -/
inductive Node where
  | elem (tag : String) (attrs : List (String × String)) (children : List Node)
  | text (s : String)

/-- First attribute value for a key, as BeautifulSoup tag attribute lookup. -/
def lookupAttr : List (String × String) → String → Option String
  | [], _ => none
  | (k, v) :: rest, key => if k = key then some v else lookupAttr rest key

mutual

/-- Concatenation of all text descendants in document order, modelling
BeautifulSoup's `get_text()`. -/
def getText : Node → String
  | .text s => s
  | .elem _ _ cs => getTextList cs

def getTextList : List Node → String
  | [] => ""
  | c :: cs => getText c ++ getTextList cs

end

mutual

/-- First strict descendant satisfying `p`, in document (preorder) order:
models BeautifulSoup's `find`. -/
def findFirst (p : Node → Bool) : Node → Option Node
  | .text _ => none
  | .elem _ _ cs => findFirstList p cs

def findFirstList (p : Node → Bool) : List Node → Option Node
  | [] => none
  | c :: cs =>
    if p c then some c
    else
      match findFirst p c with
      | some r => some r
      | none => findFirstList p cs

end

mutual

/-- All strict descendants satisfying `p`, in document order: models
BeautifulSoup's `find_all` (a matching node's own descendants are still
searched). -/
def findAll (p : Node → Bool) : Node → List Node
  | .text _ => []
  | .elem _ _ cs => findAllList p cs

def findAllList (p : Node → Bool) : List Node → List Node
  | [] => []
  | c :: cs => (if p c then [c] else []) ++ findAll p c ++ findAllList p cs

end

/-- Tag-name test, false on text nodes. -/
def isTag (t : String) (n : Node) : Bool :=
  match n with
  | .elem tag _ _ => tag = t
  | .text _ => false

/-- Exact attribute-value test, modelling BeautifulSoup keyword filters such
as `itemprop='name'`. -/
def attrEq (key val : String) (n : Node) : Bool :=
  match n with
  | .elem _ attrs _ => lookupAttr attrs key = some val
  | .text _ => false

/-- Split a character list at every space, keeping empty pieces (the
semantics of Python's `split(' ')` with an explicit separator). -/
def splitOnSpaceAux : List Char → List Char → List (List Char)
  | [], cur => [cur.reverse]
  | c :: rest, cur =>
    if c = ' ' then cur.reverse :: splitOnSpaceAux rest []
    else splitOnSpaceAux rest (c :: cur)

/-- BeautifulSoup `class_` filter: matches when the query is one of the
space-separated class names, or equals the whole class attribute (the
multi-word form used for `class_='work-title-and-author desktop'`). -/
def hasClass (c : String) (n : Node) : Bool :=
  match n with
  | .elem _ attrs _ =>
    match lookupAttr attrs "class" with
    | some s => (splitOnSpaceAux s.data []).contains c.data || s = c
    | none => false
  | .text _ => false

/-- Python whitespace for `str.strip` and regex `\s` (ASCII). -/
def isPySpace (c : Char) : Bool :=
  c = ' ' || c = '\t' || c = '\n' || c = '\r' || c = '\x0b' || c = '\x0c'

/-- ASCII decimal digit, regex `\d`. -/
def isDigitCh (c : Char) : Bool :=
  '0' ≤ c && c ≤ '9'

/-- ASCII word character, for the regex word boundary `\b`. -/
def isWordCh (c : Char) : Bool :=
  c.isAlpha || isDigitCh c || c = '_'

/-- Python `str.strip()`. -/
def pyStrip (s : String) : String :=
  String.mk (((s.data.dropWhile isPySpace).reverse.dropWhile isPySpace).reverse)

/-- Python `str.isdigit()` on an ASCII string: nonempty and all digits. -/
def isDigits (l : List Char) : Bool :=
  !l.isEmpty && l.all isDigitCh

/-- Numeric value of a digit string, as Python `int` on a digits-only string. -/
def digitsToNat (l : List Char) : Nat :=
  l.foldl (fun a c => a * 10 + (c.toNat - '0'.toNat)) 0

/-- Substring test (Python `in`, `re.search` of a literal pattern). -/
def containsSub (needle : List Char) : List Char → Bool
  | [] => needle.isEmpty
  | l@(_ :: t) => needle.isPrefixOf l || containsSub needle t

/-- Case-insensitive ASCII match of a (lowercase) literal word at the head of
the input; returns the rest on success. -/
def matchWordCI : List Char → List Char → Option (List Char)
  | [], l => some l
  | _ :: _, [] => none
  | w :: ws, c :: cs => if c.toLower = w then matchWordCI ws cs else none

/-- Case-sensitive literal match at the head of the input; returns the rest on
success. -/
def matchWord : List Char → List Char → Option (List Char)
  | [], l => some l
  | _ :: _, [] => none
  | w :: ws, c :: cs => if c = w then matchWord ws cs else none

/-- One match attempt of `\((\d{4})\)` anchored at the head: an opening
parenthesis, exactly four digits, a closing parenthesis. -/
def yearTryAt : List Char → Option (List Char)
  | '(' :: a :: b :: c :: d :: ')' :: _ =>
    if isDigitCh a && isDigitCh b && isDigitCh c && isDigitCh d then
      some [a, b, c, d]
    else none
  | _ => none

/-- `re.search(r'\((\d{4})\)', s)` (line 64): leftmost match, returning
group 1 (the four digits). -/
def yearSearch : List Char → Option (List Char)
  | [] => none
  | l@(_ :: t) =>
    match yearTryAt l with
    | some y => some y
    | none => yearSearch t

/-- Word boundary after the regex `editions?` has consumed `edition`: the
optional `s` (case-insensitive) is taken greedily, then `\b` requires the
next character to be a non-word character or the end. -/
def editionTail : List Char → Bool
  | [] => true
  | c :: rest =>
    if c.toLower = 's' then
      match rest with
      | [] => true
      | d :: _ => !isWordCh d
    else !isWordCh c

/-- One match attempt of `(\d+)\s*editions?\b` (case-insensitive) anchored at
the head: maximal digit run, optional whitespace, the word `edition`, the
greedy optional `s`, word boundary. -/
def editionTryAt (l : List Char) : Option Nat :=
  let ds := l.takeWhile isDigitCh
  if ds.isEmpty then none
  else
    match matchWordCI "edition".data ((l.drop ds.length).dropWhile isPySpace) with
    | some rest => if editionTail rest then some (digitsToNat ds) else none
    | none => none

/-- `re.search(r'(\d+)\s*editions?\b', text, re.I)` (line 99): leftmost
match, returning `int` of group 1. -/
def editionSearch : List Char → Option Nat
  | [] => none
  | l@(_ :: t) =>
    match editionTryAt l with
    | some n => some n
    | none => editionSearch t

/-- One match attempt of `(\d\.\d+)\s*\((\d+)\s*ratings?\)` anchored at the
head: a single digit, a dot, a maximal digit run, optional whitespace, an
opening parenthesis, a maximal digit run, optional whitespace, the word
`rating`, a greedy optional `s`, a closing parenthesis.  Returns group 1 as
(leading digit, fraction digits) and group 2 (the count digits). -/
def ratingTryAt : List Char → Option (Char × List Char × List Char)
  | d0 :: '.' :: rest =>
    if isDigitCh d0 then
      let frac := rest.takeWhile isDigitCh
      if frac.isEmpty then none
      else
        match (rest.drop frac.length).dropWhile isPySpace with
        | '(' :: r2 =>
          let cnt := r2.takeWhile isDigitCh
          if cnt.isEmpty then none
          else
            match matchWord "rating".data ((r2.drop cnt.length).dropWhile isPySpace) with
            | some (')' :: _) => some (d0, frac, cnt)
            | some ('s' :: ')' :: _) => some (d0, frac, cnt)
            | _ => none
        | _ => none
    else none
  | _ => none

/-- `re.search(r'(\d\.\d+)\s*\((\d+)\s*ratings?\)', rating_text)` (line 111):
leftmost match. -/
def ratingSearch : List Char → Option (Char × List Char × List Char)
  | [] => none
  | l@(_ :: t) =>
    match ratingTryAt l with
    | some r => some r
    | none => ratingSearch t

/-- Python `float` on a matched `\d\.\d+` group, modelled as the exact
decimal rational. -/
def decimalToRat (d0 : Char) (frac : List Char) : ℚ :=
  (digitsToNat (d0 :: frac) : ℚ) / (10 : ℚ) ^ frac.length

/-! ## Detail-page record and per-field extractors (`crawl_book_details_from_url`, lines 38-123) -/

/-- The record built by `crawl_book_details_from_url`.  Counts extracted from
digit-only regex groups are naturals; the rating is the exact decimal
rational of the matched literal. -/
structure BookDetails where
  source_url : String
  title : String
  authors : List String
  first_published : String
  publish_date : String
  subjects : List String
  language : String
  isbn : String
  edition_count : Nat
  rating : ℚ
  number_of_ratings : Nat
  pages : Nat
deriving DecidableEq, Repr

/-- Selector of line 47: `soup.find('span', itemprop='name')`. -/
def titleSpanSel (n : Node) : Bool := isTag "span" n && attrEq "itemprop" "name" n

/-- Selector of line 55: `soup.find('div', class_='work-title-and-author desktop')`. -/
def authorAncestorSel (n : Node) : Bool :=
  isTag "div" n && hasClass "work-title-and-author desktop" n

/-- Selector of line 57: `ancestor.find_all('a', itemprop='author')`. -/
def authorLinkSel (n : Node) : Bool := isTag "a" n && attrEq "itemprop" "author" n

/-- Selector of line 61: `soup.find('span', class_='first-published-date')`. -/
def firstPubSel (n : Node) : Bool := isTag "span" n && hasClass "first-published-date" n

/-- Selector of line 73: `soup.find('span', itemprop='datePublished')`. -/
def datePublishedSel (n : Node) : Bool :=
  isTag "span" n && attrEq "itemprop" "datePublished" n

/-- Selector of line 80: `soup.find_all('a', href=re.compile(r'/subjects/'))` —
an anchor whose `href` attribute exists and contains `/subjects/`. -/
def subjectLinkSel (n : Node) : Bool :=
  isTag "a" n &&
    (match n with
     | .elem _ attrs _ =>
       match lookupAttr attrs "href" with
       | some h => containsSub "/subjects/".data h.data
       | none => false
     | .text _ => false)

/-- Selector of line 84: `soup.find('span', {'itemprop': 'inLanguage'})`. -/
def languageSel (n : Node) : Bool := isTag "span" n && attrEq "itemprop" "inLanguage" n

/-- Selector of line 94: `soup.find('dd', {'itemprop': 'isbn'})`. -/
def isbnSel (n : Node) : Bool := isTag "dd" n && attrEq "itemprop" "isbn" n

/-- Selector of line 107: `soup.find('span', {'itemprop': 'ratingValue'})`. -/
def ratingSel (n : Node) : Bool := isTag "span" n && attrEq "itemprop" "ratingValue" n

/-- Selector of line 119:
`soup.find('span', class_='edition-pages', itemprop='numberOfPages')`. -/
def pagesSel (n : Node) : Bool :=
  isTag "span" n && hasClass "edition-pages" n && attrEq "itemprop" "numberOfPages" n

/-- Lines 46-50: primary marker `span[itemprop=name]`, fallback first `h1`;
text of the winner stripped, else the empty string. -/
def extractTitle (soup : Node) : String :=
  let title_elem :=
    match findFirst titleSpanSel soup with
    | some e => some e
    | none => findFirst (isTag "h1") soup
  match title_elem with
  | some e => pyStrip (getText e)
  | none => ""

/-- Lines 53-58: author links only within the `work-title-and-author desktop`
ancestor; empty list when that ancestor is absent. -/
def extractAuthors (soup : Node) : List String :=
  let author_links :=
    match findFirst authorAncestorSel soup with
    | some ancestor => findAll authorLinkSel ancestor
    | none => []
  author_links.map (fun link => pyStrip (getText link))

/-- Lines 60-70: the `first-published-date` span; a parenthesized 4-digit
year if the pattern matches, else the stripped raw text, else empty. -/
def extractFirstPublished (soup : Node) : String :=
  match findFirst firstPubSel soup with
  | some sp =>
    if getText sp ≠ "" then
      match yearSearch (getText sp).data with
      | some y => String.mk y
      | none => pyStrip (getText sp)
    else ""
  | none => ""

/-- Lines 72-77: the `datePublished` span's stripped text, else empty. -/
def extractPublishDate (soup : Node) : String :=
  match findFirst datePublishedSel soup with
  | some sp => pyStrip (getText sp)
  | none => ""

/-- Lines 79-81: stripped texts of all `/subjects/` links in document order. -/
def extractSubjects (soup : Node) : List String :=
  (findAll subjectLinkSel soup).map (fun link => pyStrip (getText link))

/-- Lines 83-88: the `inLanguage` span's stripped text, else empty. -/
def extractLanguage (soup : Node) : String :=
  match findFirst languageSel soup with
  | some sp => pyStrip (getText sp)
  | none => ""

/-- Lines 90-96: the `dd[itemprop=isbn]` entry's stripped text, else empty. -/
def extractIsbn (soup : Node) : String :=
  match findFirst isbnSel soup with
  | some dd => pyStrip (getText dd)
  | none => ""

/-- Lines 98-100: scan the whole page's text for `(\d+)\s*editions?\b`
(case-insensitive); 0 when there is no match. -/
def extractEditionCount (soup : Node) : Nat :=
  match editionSearch (getText soup).data with
  | some n => n
  | none => 0

/-- Lines 102-114: rating and number of ratings from the `ratingValue` span's
stripped text via the compound pattern `(\d\.\d+)\s*\((\d+)\s*ratings?\)`;
both default to 0 unless the span exists and the compound pattern matches. -/
def extractRating (soup : Node) : ℚ × Nat :=
  match findFirst ratingSel soup with
  | some sp =>
    match ratingSearch (pyStrip (getText sp)).data with
    | some (d0, frac, cnt) => (decimalToRat d0 frac, digitsToNat cnt)
    | none => (0, 0)
  | none => (0, 0)

/-- Lines 116-121: the double-checked pages span; its stripped text accepted
only when purely numeric, else 0. -/
def extractPages (soup : Node) : Nat :=
  match findFirst pagesSel soup with
  | some sp => if isDigits (pyStrip (getText sp)).data then digitsToNat (pyStrip (getText sp)).data else 0
  | none => 0

/-- Lines 44-123: the record assembled from a parsed detail page (dict
insertion order of the Python code is immaterial to the record). -/
def extractBookDetails (book_url : String) (soup : Node) : BookDetails :=
  { source_url := book_url
    title := extractTitle soup
    authors := extractAuthors soup
    first_published := extractFirstPublished soup
    publish_date := extractPublishDate soup
    subjects := extractSubjects soup
    language := extractLanguage soup
    isbn := extractIsbn soup
    edition_count := extractEditionCount soup
    rating := (extractRating soup).1
    number_of_ratings := (extractRating soup).2
    pages := extractPages soup }

/-- Lines 38-123: `crawl_book_details_from_url`.  `get_page` is the `fetch`
parameter; a failed fetch returns `None` from `get_page` and `{}` (modelled
as `none`) from the crawler. -/
def crawl_book_details_from_url (fetch : String → Option Node) (book_url : String) :
    Option BookDetails :=
  match fetch book_url with
  | none => none
  | some soup => some (extractBookDetails book_url soup)

/-! ## Batch detail crawl (`crawl_book_details_from_csv`, lines 125-158) -/

/-- One row of the input CSV, restricted to the columns the loop reads:
`row[url_column]`, `row.get('title', '')`, `row.get('work_key', '')`
(an absent column is the empty string). -/
structure CsvRow where
  book_url : String
  title : String
  work_key : String
deriving DecidableEq, Repr

/-- An output record of the batch crawl: the extracted details plus the
`original_title` and `work_key` keys added at lines 149-150. -/
structure DetailedBook where
  details : BookDetails
  original_title : String
  work_key : String
deriving DecidableEq, Repr

/-- The loop of lines 142-151: accumulate, in input order, one merged record
per row whose detail crawl returned a truthy (non-empty) result. -/
def csvLoop (fetch : String → Option Node) : List CsvRow → List DetailedBook → List DetailedBook
  | [], acc => acc
  | row :: rest, acc =>
    match crawl_book_details_from_url fetch row.book_url with
    | some details =>
      csvLoop fetch rest
        (acc ++ [{ details := details, original_title := row.title, work_key := row.work_key }])
    | none => csvLoop fetch rest acc

/-- Lines 125-158: `crawl_book_details_from_csv`, with the CSV file already
loaded into a list of rows (file reading and the column-presence check are
input handling outside the loop this models). -/
def crawl_book_details_from_csv (fetch : String → Option Node) (rows : List CsvRow) :
    List DetailedBook :=
  csvLoop fetch rows []

/-! ## Paginated discovery (`crawl_openlibrary_books_by_subject`, lines 160-226) -/

/-- A discovered summary record (lines 213-217). -/
structure SummaryRecord where
  title : String
  work_key : String
  book_url : String
deriving DecidableEq, Repr

/-- Line 168: the search URL for a subject and page index (the braces of the
Lucene range filter appear percent-encoded in the source). -/
def searchUrl (subject : String) (page : Nat) : String :=
  "https://openlibrary.org/search?q=subject_key%3A%22" ++ subject ++
    "%22+edition_count%3A%7B5+TO+*%7D&page=" ++ toString page

/-- Selector of line 178/184: a `div` (or `li`) with class `searchResultItem`,
and of line 182: a `div` with class `book-item`. -/
def resultItemSel (tag cls : String) (n : Node) : Bool :=
  isTag tag n && hasClass cls n

/-- Lines 177-184: the item containers of a results page — the primary
selector, then the two alternatives, each tried only when the previous one
returned nothing. -/
def bookItems (soup : Node) : List Node :=
  let items1 := findAll (resultItemSel "div" "searchResultItem") soup
  if !items1.isEmpty then items1
  else
    let items2 := findAll (resultItemSel "div" "book-item") soup
    if !items2.isEmpty then items2
    else findAll (resultItemSel "li" "searchResultItem") soup

/-- Selector of line 195: `item.find('a', class_='results')`. -/
def resultsLinkSel (n : Node) : Bool := isTag "a" n && hasClass "results" n

/-- Lines 210-211: `href.split('/works/')[-1]` — the suffix after the last
(left-to-right non-overlapping) occurrence of `/works/`. -/
def afterLastWorks : List Char → List Char
  | '/' :: 'w' :: 'o' :: 'r' :: 'k' :: 's' :: '/' :: rest =>
    if containsSub "/works/".data rest then afterLastWorks rest else rest
  | _ :: t => afterLastWorks t
  | [] => []

/-- Lines 206-211: the work key of an item link — empty unless the href
contains `/works/`; otherwise the part after the last `/works/`, cut at the
first path separator and then at the first question mark
(`work_part.split('/')[0].split('?')[0]`). -/
def workKeyFromHref (href : String) : String :=
  if containsSub "/works/".data href.data then
    String.mk (((afterLastWorks href.data).takeWhile (fun c => c ≠ '/')).takeWhile
      (fun c => c ≠ '?'))
  else ""

/-- Lines 191-217: process one item container.  `Except.error` models the
`KeyError` Python raises at line 203 when the selected link has no `href`
attribute; `.ok none` models `continue` for an item without a title link. -/
def extractItem (item : Node) : Except Unit (Option SummaryRecord) :=
  let fromH3 :=
    match findFirst (isTag "h3") item with
    | some h3 => findFirst (isTag "a") h3
    | none => none
  let title_link :=
    match fromH3 with
    | some l => some l
    | none => findFirst resultsLinkSel item
  match title_link with
  | none => .ok none
  | some link =>
    match link with
    | .text _ => .error ()
    | .elem _ attrs _ =>
      match lookupAttr attrs "href" with
      | none => .error ()
      | some href =>
        .ok (some
          { title := pyStrip (getText link)
            work_key := workKeyFromHref href
            book_url := "https://openlibrary.org" ++ href })

/-- The inner loop of lines 191-217 over the item containers of one page, in
document order; an item failure (`KeyError`) aborts the whole crawl as the
uncaught Python exception would. -/
def extractItems : List Node → Except Unit (List SummaryRecord)
  | [] => .ok []
  | item :: rest =>
    match extractItem item with
    | .error e => .error e
    | .ok none => extractItems rest
    | .ok (some b) =>
      match extractItems rest with
      | .error e => .error e
      | .ok bs => .ok (b :: bs)

/-- Line 170 composed with line 168: the parsed results page for one page
index, or `none` on fetch failure. -/
def fetchedPage (fetch : String → Option Node) (subject : String) (page : Nat) : Option Node :=
  fetch (searchUrl subject page)

/-- Lines 164-223: the pagination loop, counting down the remaining page
indices from `page`.  A failed fetch skips the page (`continue`, line 173);
an empty container scan stops the whole loop (`break`, line 189); otherwise
the page's records are prepended to the remaining pages' records, matching
`books.extend(page_books)` accumulation order.  The `time.sleep(0.5)` pacing
has no observable effect on the result and is not modelled. -/
def crawlPages (fetch : String → Option Node) (subject : String) :
    Nat → Nat → Except Unit (List SummaryRecord)
  | 0, _ => .ok []
  | n + 1, page =>
    match fetchedPage fetch subject page with
    | none => crawlPages fetch subject n (page + 1)
    | some soup =>
      if (bookItems soup).isEmpty then .ok []
      else
        match extractItems (bookItems soup) with
        | .error e => .error e
        | .ok page_books =>
          match crawlPages fetch subject n (page + 1) with
          | .error e => .error e
          | .ok rest => .ok (page_books ++ rest)

/-- Lines 160-226: `crawl_openlibrary_books_by_subject`, pages 1 to
`max_pages` inclusive. -/
def crawl_openlibrary_books_by_subject (fetch : String → Option Node) (subject : String)
    (max_pages : Nat) : Except Unit (List SummaryRecord) :=
  crawlPages fetch subject max_pages 1

/-! ## Theorems -/

/-- On a successful fetch the detail crawler returns exactly the record
assembled from the fetched page. -/
theorem crawl_details_eq_some (fetch : String → Option Node) (url : String) (soup : Node)
    (hf : fetch url = some soup) :
    crawl_book_details_from_url fetch url = some (extractBookDetails url soup) := by
  simp [crawl_book_details_from_url, hf]

/-- C1: detail extraction fails as a whole exactly when the page could not be
fetched or parsed, and on success every field whose marker could not be
located equals its documented default (empty string for title,
first_published, publish_date, language, isbn; empty list for authors and
subjects; 0 for edition_count, number_of_ratings, pages; 0 for the
rating). -/
theorem C1_detail_defaults_total (fetch : String → Option Node) (url : String) :
    (crawl_book_details_from_url fetch url = none ↔ fetch url = none) ∧
    (∀ soup r, fetch url = some soup → crawl_book_details_from_url fetch url = some r →
      (findFirst titleSpanSel soup = none → findFirst (isTag "h1") soup = none →
        r.title = "") ∧
      (findFirst authorAncestorSel soup = none → r.authors = []) ∧
      (findFirst firstPubSel soup = none → r.first_published = "") ∧
      (findFirst datePublishedSel soup = none → r.publish_date = "") ∧
      (findAll subjectLinkSel soup = [] → r.subjects = []) ∧
      (findFirst languageSel soup = none → r.language = "") ∧
      (findFirst isbnSel soup = none → r.isbn = "") ∧
      (editionSearch (getText soup).data = none → r.edition_count = 0) ∧
      (findFirst ratingSel soup = none → r.rating = 0 ∧ r.number_of_ratings = 0) ∧
      (findFirst pagesSel soup = none → r.pages = 0)) := by
  constructor
  · cases hf : fetch url <;> simp [crawl_book_details_from_url, hf]
  · intro soup r hf hr
    rw [crawl_details_eq_some fetch url soup hf] at hr
    obtain rfl : extractBookDetails url soup = r := Option.some.inj hr
    refine ⟨?_, ?_, ?_, ?_, ?_, ?_, ?_, ?_, ?_, ?_⟩
    · intro h1 h2; simp [extractBookDetails, extractTitle, h1, h2]
    · intro h; simp [extractBookDetails, extractAuthors, h]
    · intro h; simp [extractBookDetails, extractFirstPublished, h]
    · intro h; simp [extractBookDetails, extractPublishDate, h]
    · intro h; simp [extractBookDetails, extractSubjects, h]
    · intro h; simp [extractBookDetails, extractLanguage, h]
    · intro h; simp [extractBookDetails, extractIsbn, h]
    · intro h; simp [extractBookDetails, extractEditionCount, h]
    · intro h; simp [extractBookDetails, extractRating, h]
    · intro h; simp [extractBookDetails, extractPages, h]

/-- A detail page with no markers at all. -/
def emptySoup : Node := .elem "html" [] []

/-- A fetch that always returns the empty page. -/
def emptyFetch : String → Option Node := fun _ => some emptySoup

/-- The record the crawler produces for the empty page. -/
def emptyDetails : BookDetails :=
  { source_url := "https://openlibrary.org/works/OL0W", title := "", authors := [],
    first_published := "", publish_date := "", subjects := [], language := "", isbn := "",
    edition_count := 0, rating := 0, number_of_ratings := 0, pages := 0 }

/-- C1 witness: on a concrete page with no markers every field is its
default. -/
theorem C1_detail_defaults_total_witness :
    crawl_book_details_from_url emptyFetch "https://openlibrary.org/works/OL0W" =
        some emptyDetails ∧
      emptyDetails.title = "" ∧ emptyDetails.authors = [] ∧
      emptyDetails.first_published = "" ∧ emptyDetails.publish_date = "" ∧
      emptyDetails.subjects = [] ∧ emptyDetails.language = "" ∧ emptyDetails.isbn = "" ∧
      emptyDetails.edition_count = 0 ∧ emptyDetails.rating = 0 ∧
      emptyDetails.number_of_ratings = 0 ∧ emptyDetails.pages = 0 := by
  have hcrawl : crawl_book_details_from_url emptyFetch "https://openlibrary.org/works/OL0W" =
      some emptyDetails := rfl
  obtain ⟨c1, c2, c3, c4, c5, c6, c7, c8, c9, c10⟩ :=
    (C1_detail_defaults_total emptyFetch "https://openlibrary.org/works/OL0W").2
      emptySoup emptyDetails rfl hcrawl
  exact ⟨hcrawl, c1 rfl rfl, c2 rfl, c3 rfl, c4 rfl, c5 rfl, c6 rfl, c7 rfl, c8 rfl,
    (c9 rfl).1, (c9 rfl).2, c10 rfl⟩

/-- A detail page whose rating span reads `3.8 (8 ratings)`. -/
def ratingSoupA : Node :=
  .elem "html" [] [.elem "span" [("itemprop", "ratingValue")] [.text "3.8 (8 ratings)"]]

/-- A detail page whose rating span reads `4.2` with no parenthesized count. -/
def ratingSoupB : Node :=
  .elem "html" [] [.elem "span" [("itemprop", "ratingValue")] [.text "4.2"]]

/-- C2: a rating span `3.8 (8 ratings)` yields rating 3.8 and 8 ratings; a
lone `4.2` without a parenthesized count fails the compound pattern and
leaves both fields at their defaults 0 and 0. -/
theorem C2_rating_compound_pattern :
    (crawl_book_details_from_url (fun _ => some ratingSoupA) "uA").map
        (fun r => (r.rating, r.number_of_ratings)) = some ((3.8 : ℚ), 8) ∧
    (crawl_book_details_from_url (fun _ => some ratingSoupB) "uB").map
        (fun r => (r.rating, r.number_of_ratings)) = some ((0 : ℚ), 0) := by
  have hA : crawl_book_details_from_url (fun _ => some ratingSoupA) "uA" =
      some (extractBookDetails "uA" ratingSoupA) := rfl
  have hB : crawl_book_details_from_url (fun _ => some ratingSoupB) "uB" =
      some (extractBookDetails "uB" ratingSoupB) := rfl
  have hrA : (extractBookDetails "uA" ratingSoupA).rating = decimalToRat '3' ['8'] := rfl
  have hvA : decimalToRat '3' ['8'] = (3.8 : ℚ) := by
    rw [decimalToRat, show digitsToNat ('3' :: ['8']) = 38 from rfl]
    norm_num
  have hnA : (extractBookDetails "uA" ratingSoupA).number_of_ratings = 8 := rfl
  have hrB : (extractBookDetails "uB" ratingSoupB).rating = (0 : ℚ) := rfl
  have hnB : (extractBookDetails "uB" ratingSoupB).number_of_ratings = 0 := rfl
  constructor
  · rw [hA]; simp [hrA, hvA, hnA]
  · rw [hB]; simp [hrB, hnB]

/-- The batch loop's accumulator unrolls to a `filterMap` over the rows. -/
theorem csvLoop_eq (fetch : String → Option Node) (rows : List CsvRow) :
    ∀ acc : List DetailedBook,
      csvLoop fetch rows acc =
        acc ++ rows.filterMap (fun row =>
          (crawl_book_details_from_url fetch row.book_url).map (fun d =>
            { details := d, original_title := row.title, work_key := row.work_key })) := by
  induction rows with
  | nil => intro acc; simp [csvLoop]
  | cons row rest ih =>
    intro acc
    cases hc : crawl_book_details_from_url fetch row.book_url with
    | none => simp [csvLoop, hc, ih, List.filterMap_cons]
    | some d => simp [csvLoop, hc, ih, List.filterMap_cons]

/-- A detail page carrying none of the probed markers. -/
def plainSoup : Node := .elem "html" [] [.text "a page with no markers"]

/-- A fetch for which the second of three detail URLs fails. -/
def csvDemoFetch : String → Option Node :=
  fun u => if u = "u2" then none else some plainSoup

/-- First demo CSV row. -/
def rowA : CsvRow := { book_url := "u1", title := "t1", work_key := "k1" }

/-- Second demo CSV row (its fetch fails). -/
def rowB : CsvRow := { book_url := "u2", title := "t2", work_key := "k2" }

/-- Third demo CSV row. -/
def rowC : CsvRow := { book_url := "u3", title := "t3", work_key := "k3" }

/-- C3: the batch detail crawler's output is exactly the successfully crawled
rows, in input order, each merged with its row's original title and work
key; a failed row contributes nothing.  Concretely, three rows with the
second fetch failing yield exactly the first and third records, in order. -/
theorem C3_batch_skips_failures_in_order :
    (∀ (fetch : String → Option Node) (rows : List CsvRow),
      crawl_book_details_from_csv fetch rows =
        rows.filterMap (fun row =>
          (crawl_book_details_from_url fetch row.book_url).map (fun d =>
            { details := d, original_title := row.title, work_key := row.work_key }))) ∧
    crawl_book_details_from_csv csvDemoFetch [rowA, rowB, rowC] =
      [{ details := extractBookDetails "u1" plainSoup, original_title := "t1",
         work_key := "k1" },
       { details := extractBookDetails "u3" plainSoup, original_title := "t3",
         work_key := "k3" }] := by
  constructor
  · intro fetch rows
    rw [crawl_book_details_from_csv, csvLoop_eq]
    simp
  · rfl

/-- A detail page whose text contains the phrase `7 editions`. -/
def editionSoupA : Node := .elem "html" [] [.text "A classic. 7 editions available."]

/-- A detail page whose text contains the phrase `1 edition`. -/
def editionSoupB : Node := .elem "html" [] [.text "1 edition"]

/-- A detail page whose text contains no number-then-edition phrase. -/
def editionSoupC : Node := .elem "html" [] [.text "no numbers of interest here"]

/-- C6: the edition count comes from scanning the page's whole text for the
first number followed by `edition`/`editions`: `7 editions` yields 7,
`1 edition` yields 1, and a page without such a phrase yields 0. -/
theorem C6_edition_count_text_scan :
    (crawl_book_details_from_url (fun _ => some editionSoupA) "uA").map
        (fun r => r.edition_count) = some 7 ∧
    (crawl_book_details_from_url (fun _ => some editionSoupB) "uB").map
        (fun r => r.edition_count) = some 1 ∧
    (crawl_book_details_from_url (fun _ => some editionSoupC) "uC").map
        (fun r => r.edition_count) = some 0 := by
  refine ⟨rfl, rfl, rfl⟩

/-- C7: the extracted title is the `span[itemprop=name]` text when that span
exists (the `h1` fallback is not consulted); otherwise the first `h1`'s
text; otherwise the empty string. -/
theorem C7_title_fallback_order (fetch : String → Option Node) (url : String) (soup : Node)
    (r : BookDetails) (hf : fetch url = some soup)
    (hr : crawl_book_details_from_url fetch url = some r) :
    (∀ e, findFirst titleSpanSel soup = some e → r.title = pyStrip (getText e)) ∧
    (findFirst titleSpanSel soup = none →
      (∀ e, findFirst (isTag "h1") soup = some e → r.title = pyStrip (getText e)) ∧
      (findFirst (isTag "h1") soup = none → r.title = "")) := by
  rw [crawl_details_eq_some fetch url soup hf] at hr
  obtain rfl : extractBookDetails url soup = r := Option.some.inj hr
  constructor
  · intro e he; simp [extractBookDetails, extractTitle, he]
  · intro hn
    constructor
    · intro e he; simp [extractBookDetails, extractTitle, hn, he]
    · intro hh; simp [extractBookDetails, extractTitle, hn, hh]

/-- A detail page with both an `h1` and a `span[itemprop=name]`. -/
def titleSoup : Node :=
  .elem "html" [] [.elem "h1" [] [.text "Wrong"],
    .elem "span" [("itemprop", "name")] [.text " The Hobbit "]]

/-- C7 witness: on a concrete page with both markers the named span wins over
the `h1`. -/
theorem C7_title_fallback_order_witness :
    (extractBookDetails "u" titleSoup).title = "The Hobbit" := by
  have h := C7_title_fallback_order (fun _ => some titleSoup) "u" titleSoup
    (extractBookDetails "u" titleSoup) rfl rfl
  have he := h.1 (.elem "span" [("itemprop", "name")] [.text " The Hobbit "]) rfl
  exact he.trans rfl

/-- C8: extraction is a pure function of the fetched page content — two
fetches that agree on the requested URL produce identical detail records. -/
theorem C8_pure_function_of_content (fetch fetch' : String → Option Node) (url : String)
    (h : fetch url = fetch' url) :
    crawl_book_details_from_url fetch url = crawl_book_details_from_url fetch' url := by
  unfold crawl_book_details_from_url
  rw [h]

/-- A fetch returning the rating demo page everywhere. -/
def fetchEverywhere : String → Option Node := fun _ => some ratingSoupA

/-- A fetch returning the rating demo page only at `uA`. -/
def fetchOnlyUA : String → Option Node :=
  fun u => if u = "uA" then some ratingSoupA else none

/-- C8 witness: two concrete fetches agreeing at `uA` give the same record. -/
theorem C8_pure_function_of_content_witness :
    crawl_book_details_from_url fetchEverywhere "uA" =
      crawl_book_details_from_url fetchOnlyUA "uA" :=
  C8_pure_function_of_content fetchEverywhere fetchOnlyUA "uA" rfl

/-- A detail page whose rating span reads `10.0 (5 ratings)`. -/
def ratingSoupC : Node :=
  .elem "html" [] [.elem "span" [("itemprop", "ratingValue")] [.text "10.0 (5 ratings)"]]

/-- C9: on `10.0 (5 ratings)` the single-digit rating pattern matches the
trailing `0.0`, so the extracted rating is 0 while the count is still 5. -/
theorem C9_two_digit_rating_mismatch :
    (crawl_book_details_from_url (fun _ => some ratingSoupC) "uC").map
        (fun r => (r.rating, r.number_of_ratings)) = some ((0 : ℚ), 5) := by
  have hC : crawl_book_details_from_url (fun _ => some ratingSoupC) "uC" =
      some (extractBookDetails "uC" ratingSoupC) := rfl
  have hr : (extractBookDetails "uC" ratingSoupC).rating = decimalToRat '0' ['0'] := rfl
  have hv : decimalToRat '0' ['0'] = (0 : ℚ) := by
    rw [decimalToRat, show digitsToNat ('0' :: ['0']) = 0 from rfl]
    norm_num
  have hn : (extractBookDetails "uC" ratingSoupC).number_of_ratings = 5 := rfl
  rw [hC]
  simp [hr, hv, hn]

/-- C10: every successful detail record carries as `source_url` exactly the
URL the crawl was called with. -/
theorem C10_source_url_preserved (fetch : String → Option Node) (url : String)
    (r : BookDetails) (hr : crawl_book_details_from_url fetch url = some r) :
    r.source_url = url := by
  cases hf : fetch url with
  | none => simp [crawl_book_details_from_url, hf] at hr
  | some soup =>
    rw [crawl_details_eq_some fetch url soup hf] at hr
    obtain rfl : extractBookDetails url soup = r := Option.some.inj hr
    rfl

/-- C10 witness: the record extracted from the empty page at a concrete URL
carries that URL. -/
theorem C10_source_url_preserved_witness :
    emptyDetails.source_url = "https://openlibrary.org/works/OL0W" :=
  C10_source_url_preserved emptyFetch "https://openlibrary.org/works/OL0W" emptyDetails rfl

/-- Whether the discovery loop's stop condition holds at a page index: the
page was fetched and its container scan, through all selector fallbacks,
found nothing (a failed fetch is not a stop). -/
def stopsAt (fetch : String → Option Node) (subject : String) (p : Nat) : Bool :=
  match fetchedPage fetch subject p with
  | some soup => (bookItems soup).isEmpty
  | none => false

/-- Whether processing a page index cannot raise: either the fetch fails
(the page is skipped) or every selected title link carries an `href`. -/
def pageOk (fetch : String → Option Node) (subject : String) (p : Nat) : Bool :=
  match fetchedPage fetch subject p with
  | some soup =>
    match extractItems (bookItems soup) with
    | .ok _ => true
    | .error _ => false
  | none => true

/-- The records a page index contributes: none on fetch failure, otherwise
the page's accepted items in document order. -/
def pageContrib (fetch : String → Option Node) (subject : String) (p : Nat) :
    List SummaryRecord :=
  match fetchedPage fetch subject p with
  | some soup =>
    match extractItems (bookItems soup) with
    | .ok l => l
    | .error _ => []
  | none => []

/-- The pagination loop over any window of page indices equals the
concatenation, in page order, of the contributions of the pages before the
first stop page. -/
theorem crawlPages_eq (fetch : String → Option Node) (subject : String) :
    ∀ n start : Nat, (∀ p, start ≤ p → p < start + n → pageOk fetch subject p = true) →
      crawlPages fetch subject n start =
        .ok ((((List.range' start n).takeWhile fun p => !stopsAt fetch subject p).map
          (pageContrib fetch subject)).flatten) := by
  intro n
  induction n with
  | zero => intro start h; simp [crawlPages]
  | succ m ih =>
    intro start h
    have h0 : pageOk fetch subject start = true := h start (Nat.le_refl start) (by omega)
    have hih := ih (start + 1) (fun p hp1 hp2 => h p (by omega) (by omega))
    rw [show List.range' start (m + 1) = start :: List.range' (start + 1) m from rfl]
    cases hf : fetchedPage fetch subject start with
    | none =>
      have hs : stopsAt fetch subject start = false := by simp [stopsAt, hf]
      have hc : pageContrib fetch subject start = [] := by simp [pageContrib, hf]
      simp only [crawlPages, hf]
      rw [hih]
      simp [hs, hc]
    | some soup =>
      cases hi : (bookItems soup).isEmpty with
      | true =>
        have hs : stopsAt fetch subject start = true := by simp [stopsAt, hf, hi]
        simp only [crawlPages, hf]
        simp [hi, hs]
      | false =>
        have hs : stopsAt fetch subject start = false := by simp [stopsAt, hf, hi]
        cases he : extractItems (bookItems soup) with
        | error e => simp [pageOk, hf, he] at h0
        | ok l =>
          have hc : pageContrib fetch subject start = l := by simp [pageContrib, hf, he]
          simp only [crawlPages, hf]
          rw [hih]
          simp [hi, he, hs, hc]

/-- C4: when no page raises (every selected link has an href), discovery over
pages 1..max_pages returns, in page-then-document order, exactly the
contributions of the pages before the first page whose container scan —
after all selector fallbacks — came up empty; a failed fetch contributes
nothing but does not stop the loop. -/
theorem C4_pagination_early_stop (fetch : String → Option Node) (subject : String)
    (max_pages : Nat)
    (h : ∀ p, 1 ≤ p → p ≤ max_pages → pageOk fetch subject p = true) :
    crawl_openlibrary_books_by_subject fetch subject max_pages =
      .ok ((((List.range' 1 max_pages).takeWhile fun p => !stopsAt fetch subject p).map
        (pageContrib fetch subject)).flatten) := by
  unfold crawl_openlibrary_books_by_subject
  exact crawlPages_eq fetch subject max_pages 1 (fun p h1 h2 => h p h1 (by omega))

/-- A search-result item container with a title link. -/
def itemAlpha : Node :=
  .elem "div" [("class", "searchResultItem")]
    [.elem "h3" [] [.elem "a" [("href", "/works/OL1W/Alpha")] [.text "Alpha"]]]

/-- A results page with one item. -/
def resultsPage1 : Node := .elem "html" [] [itemAlpha]

/-- A results page whose container scan finds nothing. -/
def resultsPageNoItems : Node := .elem "html" [] [.text "no results"]

/-- A fetch serving one item on page 1 and an item-free page 2. -/
def discoveryFetch : String → Option Node := fun u =>
  if u = searchUrl "science_fiction" 1 then some resultsPage1
  else if u = searchUrl "science_fiction" 2 then some resultsPageNoItems
  else none

/-- C4 witness: with three pages where page 2 scans empty, discovery stops
after page 1 and returns exactly page 1's record. -/
theorem C4_pagination_early_stop_witness :
    crawl_openlibrary_books_by_subject discoveryFetch "science_fiction" 3 =
      .ok [{ title := "Alpha", work_key := "OL1W",
             book_url := "https://openlibrary.org/works/OL1W/Alpha" }] := by
  have hp : ∀ p, 1 ≤ p → p ≤ 3 → pageOk discoveryFetch "science_fiction" p = true := by
    intro p h1 h2
    interval_cases p
    · rfl
    · rfl
    · rfl
  exact (C4_pagination_early_stop discoveryFetch "science_fiction" 3 hp).trans rfl

/-- C5: the derived work identifier of an item link href is the segment after
`/works/` cut at the next path separator or query start, and is empty when
the href has no `/works/` segment. -/
theorem C5_work_key_derivation :
    workKeyFromHref "/works/OL27448W/The_Lord_of_the_Rings" = "OL27448W" ∧
    workKeyFromHref "/works/OL27448W?extra=1" = "OL27448W" ∧
    ∀ href : String, containsSub "/works/".data href.data = false →
      workKeyFromHref href = "" := by
  refine ⟨rfl, rfl, ?_⟩
  intro href h
  simp [workKeyFromHref, h]

/-- C5 witness: a concrete href without a `/works/` segment derives the empty
work identifier. -/
theorem C5_work_key_derivation_witness : workKeyFromHref "/books/OL1M" = "" :=
  C5_work_key_derivation.2.2 "/books/OL1M" rfl
